import Mathlib

/-!
Shallow embedding of the `slipo-python` client library (SLIPO-EU/slipo-python).

The embedding models:
* the JSON values that travel in response envelopes (`Json`);
* Python exceptions as data (`PyExc`), distinguishing `SlipoException` from
  every other exception class;
* the response-normalizing decorator `json_response` and the file-sink
  decorator `file_response` from `slipo/utils.py`;
* the polymorphic input resolver `OperationClient._get_input` from
  `slipo/operation.py`;
* base-URL validation `Client._check_base_url` and construction from
  `slipo/client.py`;
* the download entry points of `FileSystemClient` and `CatalogClient`
  (`slipo/filesystem.py`, `slipo/catalog.py`) and `Client.file_upload`.

Python strings are modelled by Lean `String`; the Python operations
`startswith`, `endswith` and the slice `s[1::]` are modelled over the
character list `String.data`, which matches their Python semantics
(prefix test, suffix test, drop first character).
-/

/-- JSON values, as produced by `requests.Response.json()`.  Numbers are
modelled as integers: every number occurring in the library's envelopes
(ids, versions, file ids) is integral. -/
inductive Json where
  | null : Json
  | bool : Bool → Json
  | num : Int → Json
  | str : String → Json
  | arr : List Json → Json
  | obj : List (String × Json) → Json

/-- Python truthiness (`bool(x)`) of a JSON value: `None`, `False`, `0`,
empty string, empty list and empty dict are falsy. -/
def Json.truthy : Json → Bool
  | .null => false
  | .bool b => b
  | .num n => n != 0
  | .str s => s != ""
  | .arr xs => !xs.isEmpty
  | .obj fs => !fs.isEmpty

/-- Key lookup in a JSON object; `none` for a missing key or a non-object. -/
def Json.lookup : Json → String → Option Json
  | .obj fs, k => List.lookup k fs
  | _, _ => none

/-- Python exceptions as data.  `slipoText j` is `SlipoException(text)`
raised with payload `j` taken from an envelope (or a literal message);
`slipoWrapped k m` is `SlipoException(ex)` wrapping a non-Slipo exception
of class `k` with message `m`; `other k m` is any exception that is not a
`SlipoException` (KeyError, IndexError, TypeError, IOError, transport
errors, JSON decoding errors, ...). -/
inductive PyExc where
  | slipoText : Json → PyExc
  | slipoWrapped : String → String → PyExc
  | other : String → String → PyExc

/-- Whether the exception is (an instance of) `SlipoException`. -/
def PyExc.isSlipo : PyExc → Bool
  | .slipoText _ => true
  | .slipoWrapped _ _ => true
  | .other _ _ => false

/-- The conversion performed by the decorators' `except` clauses:
`except SlipoException: raise` re-raises Slipo exceptions unchanged, and
`except Exception as ex: raise SlipoException(ex)` wraps everything else. -/
def wrapExc : PyExc → PyExc
  | .slipoText j => .slipoText j
  | .slipoWrapped k m => .slipoWrapped k m
  | .other k m => .slipoWrapped k m

/-- Run a decorator body: re-raise `SlipoException` unchanged, wrap any
other exception in `SlipoException` (the shared `try/except` epilogue of
`json_response` and `file_response` in `slipo/utils.py`). -/
def runWrapped {α : Type} : Except PyExc α → Except PyExc α
  | .ok a => .ok a
  | .error e => .error (wrapExc e)

/-- Substring test over character lists (Python `pat in s` for strings). -/
def hasSubstr : List Char → List Char → Bool
  | pat, [] => pat.isEmpty
  | pat, c :: rest => pat.isPrefixOf (c :: rest) || hasSubstr pat rest

/-- Python subscript `j[k]` with a string key: dictionary lookup
(`KeyError` when missing), `TypeError` on any other JSON value. -/
def Json.getItem : Json → String → Except PyExc Json
  | .obj fs, k =>
    match List.lookup k fs with
    | some v => .ok v
    | none => .error (.other "KeyError" k)
  | .arr _, _ => .error (.other "TypeError" "list indices must be integers or slices, not str")
  | .str _, _ => .error (.other "TypeError" "string indices must be integers")
  | _, _ => .error (.other "TypeError" "object is not subscriptable")

/-- Python subscript `j[n]` with a non-negative integer index: list
indexing (`IndexError` when out of range), character extraction for
strings, `KeyError` for dictionaries keyed by strings, `TypeError`
otherwise. -/
def Json.getIdx : Json → Nat → Except PyExc Json
  | .arr xs, n =>
    match xs.get? n with
    | some v => .ok v
    | none => .error (.other "IndexError" "list index out of range")
  | .str s, n =>
    match s.data.get? n with
    | some c => .ok (.str (String.mk [c]))
    | none => .error (.other "IndexError" "string index out of range")
  | .obj _, _ => .error (.other "KeyError" "int key")
  | _, _ => .error (.other "TypeError" "object is not subscriptable")

/-- Python membership `k in j`: key membership for dictionaries, element
membership for lists, substring test for strings, `TypeError` otherwise. -/
def Json.hasKey : Json → String → Except PyExc Bool
  | .obj fs, k => .ok (List.lookup k fs).isSome
  | .arr xs, k => .ok (xs.any (fun x => match x with | .str s => s == k | _ => false))
  | .str s, k => .ok (hasSubstr k.data s.data)
  | _, _ => .error (.other "TypeError" "argument is not iterable")

/-- An HTTP response as seen through the `requests` API: the status code,
the outcome of `r.json()` (which may raise, e.g. on a malformed body) and
the raw byte content `r.content`. -/
structure HttpResponse where
  status_code : Nat
  json : Except PyExc Json
  content : List Nat

/-- `http.HTTPStatus.OK`. -/
def HTTP_OK : Nat := 200

/-- The error-message extraction shared by `json_response` and
`file_response` (`slipo/utils.py` lines 20 and 50):
`response['errors'][0]['description'] if 'errors' in response else response['error']`;
each step may itself raise (TypeError, IndexError, KeyError), and the
raised exception propagates. -/
def envelopeErrorText (response : Json) : Except PyExc Json :=
  match response.hasKey "errors" with
  | .error e => .error e
  | .ok true =>
    match response.getItem "errors" with
    | .error e => .error e
    | .ok errs =>
      match errs.getIdx 0 with
      | .error e => .error e
      | .ok e0 => e0.getItem "description"
  | .ok false => response.getItem "error"

/-- The short-circuiting condition
`r.status_code != http.HTTPStatus.OK or not response['success']`
(`slipo/utils.py` line 19): `response['success']` is only evaluated (and
may only raise) when the status code is OK. -/
def failCondition (r : HttpResponse) (response : Json) : Except PyExc Bool :=
  if r.status_code ≠ HTTP_OK then .ok true
  else
    match response.getItem "success" with
    | .error e => .error e
    | .ok s => .ok (!s.truthy)

/-- Body of the `json_response` wrapper (`slipo/utils.py` lines 15-26),
given the already-obtained response `r`: parse the JSON body, raise
`SlipoException` with the envelope's error text when the status is not OK
or `success` is falsy, otherwise return `result` when present and `None`
(modelled as `Option.none`) when absent. -/
def json_body (r : HttpResponse) : Except PyExc (Option Json) :=
  match r.json with
  | .error e => .error e
  | .ok response =>
    match failCondition r response with
    | .error e => .error e
    | .ok true =>
      match envelopeErrorText response with
      | .error e => .error e
      | .ok text => .error (.slipoText text)
    | .ok false =>
      match response.hasKey "result" with
      | .error e => .error e
      | .ok true =>
        match response.getItem "result" with
        | .error e => .error e
        | .ok v => .ok (some v)
      | .ok false => .ok none

/-- The `json_response` decorator applied to a call: `call` is the outcome
of `func(*args, **kwargs)` (an exception for a transport failure), and the
whole body runs under the `try/except` that re-raises `SlipoException` and
wraps anything else. -/
def json_response (call : Except PyExc HttpResponse) : Except PyExc (Option Json) :=
  runWrapped (match call with
    | .error e => .error e
    | .ok r => json_body r)

/-- The local filesystem: files with byte contents, plus directories. -/
structure FileSystem where
  files : List (String × List Nat)
  dirs : List String
deriving DecidableEq

/-- `os.path.isfile`. -/
def FileSystem.isFile (fs : FileSystem) (p : String) : Bool :=
  (List.lookup p fs.files).isSome

/-- `os.path.isdir`. -/
def FileSystem.isDir (fs : FileSystem) (p : String) : Bool :=
  fs.dirs.contains p

/-- `open(p, 'wb')` followed by `f.write(content)`: create or overwrite. -/
def FileSystem.write (fs : FileSystem) (p : String) (content : List Nat) : FileSystem :=
  { fs with files := (p, content) :: fs.files.filter (fun q => q.1 ≠ p) }

/-- Body of the `file_response` wrapper (`slipo/utils.py` lines 44-54),
given the already-obtained response `r` and the resolved target path: on a
non-OK status parse the JSON error envelope and raise `SlipoException`
with the shared message rule; on OK status write the raw content to the
target.  `writeResult` is the oracle for the `open`/`write` call: `some e`
means that call raised exception `e` (e.g. an `IOError`). -/
def file_body (r : HttpResponse) (targetPath : String) (fs : FileSystem)
    (writeResult : Option PyExc) : Except PyExc FileSystem :=
  if r.status_code ≠ HTTP_OK then
    match r.json with
    | .error e => .error e
    | .ok response =>
      match envelopeErrorText response with
      | .error e => .error e
      | .ok text => .error (.slipoText text)
  else
    match writeResult with
    | some e => .error e
    | none => .ok (fs.write targetPath r.content)

/-- The `file_response(target)` decorator applied to a call.  In the
source the wrapper locates the destination path as the positional
argument whose name is `target`; here `targetPath` is that already
resolved argument value (at the three call sites it is the `target`
parameter of the decorated method).  Returns the outcome together with
the resulting filesystem; on any raised exception the filesystem of the
attempted write is returned unchanged (the write was never reached). -/
def file_response (call : Except PyExc HttpResponse) (targetPath : String)
    (fs : FileSystem) (writeResult : Option PyExc) :
    Except PyExc Unit × FileSystem :=
  match runWrapped (match call with
    | .error e => .error e
    | .ok r => file_body r targetPath fs writeResult) with
  | .ok fs2 => (.ok (), fs2)
  | .error e => (.error e, fs)

/-- The pre-checks and transport call of `FileSystemClient.download`
(`slipo/filesystem.py` lines 69-95): reject an existing destination file
unless `overwrite` is set, reject a destination that is a directory, then
issue the GET request (modelled by the `transport` outcome). -/
def FileSystemClient.download_inner (fs : FileSystem) (target : String)
    (overwrite : Bool) (transport : Except PyExc HttpResponse) :
    Except PyExc HttpResponse :=
  if fs.isFile target && !overwrite then
    .error (.slipoText (.str ("File " ++ target ++ " already exists")))
  else if fs.isDir target then
    .error (.slipoText (.str ("Path " ++ target ++ " is a directory")))
  else transport

/-- `FileSystemClient.download`, i.e. `download_inner` run under the
`file_response('target')` decorator. -/
def FileSystemClient.download (fs : FileSystem) (target : String)
    (overwrite : Bool) (transport : Except PyExc HttpResponse)
    (writeResult : Option PyExc) : Except PyExc Unit × FileSystem :=
  file_response (FileSystemClient.download_inner fs target overwrite transport)
    target fs writeResult

/-- `CatalogClient.download` (`slipo/catalog.py` lines 92-112): builds the
URL and issues the GET request, with no check of the destination path; the
whole body runs under `file_response('target')`. -/
def CatalogClient.download (fs : FileSystem) (target : String)
    (transport : Except PyExc HttpResponse) (writeResult : Option PyExc) :
    Except PyExc Unit × FileSystem :=
  file_response transport target fs writeResult

/-- `ProcessClient.download` (`slipo/process.py` lines 161-192): likewise
no destination check before the GET under `file_response('target')`. -/
def ProcessClient.download (fs : FileSystem) (target : String)
    (transport : Except PyExc HttpResponse) (writeResult : Option PyExc) :
    Except PyExc Unit × FileSystem :=
  file_response transport target fs writeResult

/-- A Python value passed as a polymorphic operation input: a string, a
tuple (of arbitrary JSON-representable members), or a value of any other
type, carried with the rendering of its type name used by
`'Unsupported input type {type}'.format(type=type(value))`. -/
inductive PyValue where
  | str : String → PyValue
  | tuple : List Json → PyValue
  | other : String → PyValue

/-- `OperationClient._get_input` (`slipo/operation.py` lines 270-294):
map a string to a FILESYSTEM descriptor, a 2-tuple to a CATALOG
descriptor, a 3-tuple to an OUTPUT descriptor, and raise `SlipoException`
for a tuple of any other length or a value of any other type. -/
def OperationClient.get_input : PyValue → Except PyExc Json
  | .str s => .ok (.obj [("type", .str "FILESYSTEM"), ("path", .str s)])
  | .tuple [a, b] =>
    .ok (.obj [("type", .str "CATALOG"), ("id", a), ("version", b)])
  | .tuple [a, b, c] =>
    .ok (.obj [("type", .str "OUTPUT"), ("processId", a),
               ("processVersion", b), ("fileId", c)])
  | .tuple xs =>
    .error (.slipoText (.str
      ("Expected a tuple with 2 or 3 members. Instead received " ++ toString xs.length)))
  | .other t =>
    .error (.slipoText (.str ("Unsupported input type " ++ t)))

/-- Python `s.startswith(p)`. -/
def strStartsWith (s p : String) : Bool :=
  p.data.isPrefixOf s.data

/-- Python `s.endswith(p)`. -/
def strEndsWith (s p : String) : Bool :=
  p.data.isSuffixOf s.data

/-- Python `s[1::]`: drop the first character. -/
def strDrop1 (s : String) : String :=
  String.mk (s.data.drop 1)

/-- Default API endpoint `BASE_URL` (`slipo/client.py` line 21). -/
def BASE_URL : String := "https://app.dev.slipo.eu/"

/-- The fallback `if not base_url: base_url = BASE_URL`
(`slipo/client.py` lines 48-49): a falsy argument (`None` or the empty
string) is replaced by the default. -/
def effectiveBaseUrl (base_url : Option String) : String :=
  match base_url with
  | none => BASE_URL
  | some s => if s = "" then BASE_URL else s

/-- `Client._check_base_url` (`slipo/client.py` lines 47-62): apply the
default fallback, then the HTTPS check block (which either raises
`SlipoException`, emits a warning when `requires_ssl == False`, or passes),
then append a trailing slash when missing.  Returns the normalized URL
together with a flag recording whether `warnings.warn` was invoked. -/
def Client.check_base_url (base_url : Option String) (requires_ssl : Bool) :
    Except PyExc (String × Bool) :=
  match (if !strStartsWith (effectiveBaseUrl base_url) "https" then
           (if requires_ssl = false then .ok true
            else .error (.slipoText (.str "HTTPS should be used for API requests")))
         else (.ok false : Except PyExc Bool)) with
  | .error e => .error e
  | .ok warned =>
    .ok ((if strEndsWith (effectiveBaseUrl base_url) "/" then effectiveBaseUrl base_url
          else effectiveBaseUrl base_url ++ "/"), warned)

/-- The configuration held by each of the four sub-clients
(`FileSystemClient`, `CatalogClient`, `ProcessClient`,
`OperationClient`): the base URL and the API key they are constructed
with. -/
structure SubClient where
  base_url : String
  api_key : String
deriving DecidableEq

/-- The `Client` object after construction (`slipo/client.py` lines
39-45): the validated base URL, whether a warning was emitted during
validation, and the four sub-clients. -/
structure Client where
  base_url : String
  warned : Bool
  file_client : SubClient
  catalog_client : SubClient
  process_client : SubClient
  operation_client : SubClient
deriving DecidableEq

/-- `Client.__init__`: validate the base URL, then construct the four
sub-clients, each with the validated `self.base_url` and the API key. -/
def Client.init (api_key : String) (base_url : Option String)
    (requires_ssl : Bool) : Except PyExc Client :=
  match Client.check_base_url base_url requires_ssl with
  | .error e => .error e
  | .ok (url, w) =>
    .ok { base_url := url
          warned := w
          file_client := ⟨url, api_key⟩
          catalog_client := ⟨url, api_key⟩
          process_client := ⟨url, api_key⟩
          operation_client := ⟨url, api_key⟩ }

/-- The delegation performed by `Client.file_upload`
(`slipo/client.py` lines 115-118), recorded as the argument triple passed
to `FileSystemClient.upload`. -/
structure UploadCall where
  source : String
  target : String
  overwrite : Bool
deriving DecidableEq

/-- `Client.file_upload`: strip a leading slash from `target`
(`target[1::] if target.startswith('/') else target`) and delegate to the
filesystem client with `source` and `overwrite` unchanged. -/
def Client.file_upload (source target : String) (overwrite : Bool) : UploadCall :=
  { source := source
    target := if strStartsWith target "/" then strDrop1 target else target
    overwrite := overwrite }

/-! ## Helper lemmas -/

/-- The except-clause conversion always yields a `SlipoException`. -/
theorem wrapExc_isSlipo (e : PyExc) : (wrapExc e).isSlipo = true := by
  cases e <;> rfl

/-- Any error escaping a wrapped decorator body is a `SlipoException`. -/
theorem runWrapped_error {α : Type} (x : Except PyExc α) (e : PyExc)
    (h : runWrapped x = .error e) : e.isSlipo = true := by
  cases x with
  | ok a => simp [runWrapped] at h
  | error e2 =>
    simp [runWrapped] at h
    rw [← h]
    exact wrapExc_isSlipo e2

/-- Appending a slash makes `endswith('/')` hold. -/
theorem strEndsWith_append_slash (s : String) : strEndsWith (s ++ "/") "/" = true := by
  have h1 : ("/" : String).data = [Char.ofNat 47] := rfl
  have h2 : (s ++ "/").data = s.data ++ [Char.ofNat 47] := by
    rw [String.data_append, h1]
  simp [strEndsWith, h1, h2, List.isSuffixOf, List.isPrefixOf]

/-- Every URL returned by `Client._check_base_url` ends with a slash. -/
theorem check_base_url_ok_endsWith (b : Option String) (rs : Bool) (url : String) (w : Bool)
    (h : Client.check_base_url b rs = .ok (url, w)) : strEndsWith url "/" = true := by
  unfold Client.check_base_url at h
  split at h
  · simp at h
  · simp only [Except.ok.injEq, Prod.mk.injEq] at h
    obtain ⟨hu, hw⟩ := h
    by_cases he : strEndsWith (effectiveBaseUrl b) "/" = true
    · rw [if_pos he] at hu
      rw [← hu]
      exact he
    · rw [if_neg he] at hu
      rw [← hu]
      exact strEndsWith_append_slash _

/-! ## Claims -/

/-- Claim C1, counterexample: an envelope with `success:false` in which the
`errors` key is present but maps to an empty array.  The claim says the
raised error's message equals `errors[0].description` whenever `errors` is
present; here `errors[0]` does not exist (indexing raises `IndexError`),
and the code instead raises a `SlipoException` wrapping that `IndexError`,
whose message is not any `description` taken from the envelope. -/
theorem error_message_counterexample :
    Json.hasKey (.obj [("success", .bool false), ("errors", .arr [])]) "errors" = .ok true ∧
    Json.getIdx (.arr []) 0 = .error (.other "IndexError" "list index out of range") ∧
    json_response (.ok ⟨200, .ok (.obj [("success", .bool false), ("errors", .arr [])]), []⟩) =
      .error (.slipoWrapped "IndexError" "list index out of range") :=
  ⟨rfl, rfl, rfl⟩

/-- Claim C1, amended: for every envelope processed with `success:false`
or a non-OK status code, when `errors` is present and `errors[0].description`
exists, the raised `SlipoException` carries exactly that description; when
`errors` is absent and `error` is present, it carries the `error` value. -/
theorem error_message_rule (r : HttpResponse) (response : Json)
    (hjson : r.json = .ok response)
    (hfail : r.status_code ≠ HTTP_OK ∨ response.getItem "success" = .ok (.bool false)) :
    (∀ errs e0 d,
      response.hasKey "errors" = .ok true →
      response.getItem "errors" = .ok errs →
      errs.getIdx 0 = .ok e0 →
      e0.getItem "description" = .ok d →
      json_response (.ok r) = .error (.slipoText d)) ∧
    (∀ v,
      response.hasKey "errors" = .ok false →
      response.getItem "error" = .ok v →
      json_response (.ok r) = .error (.slipoText v)) := by
  have hfc : failCondition r response = .ok true := by
    rcases hfail with h | h
    · simp [failCondition, h]
    · by_cases hs : r.status_code = HTTP_OK
      · simp [failCondition, hs, h, Json.truthy]
      · simp [failCondition, hs]
  constructor
  · intro errs e0 d hk herrs h0 hd
    simp [json_response, json_body, hjson, hfc, envelopeErrorText, hk, herrs, h0, hd,
          runWrapped, wrapExc]
  · intro v hk herr
    simp [json_response, json_body, hjson, hfc, envelopeErrorText, hk, herr,
          runWrapped, wrapExc]

/-- Witness for the amended claim C1: a 500 envelope with a populated
`errors` array yields its first description, and one with only `error`
yields that value. -/
theorem error_message_rule_witness :
    json_response (.ok ⟨500, .ok (.obj [("success", .bool false),
      ("errors", .arr [.obj [("description", .str "bad request")]])]), []⟩) =
      .error (.slipoText (.str "bad request")) ∧
    json_response (.ok ⟨500, .ok (.obj [("success", .bool false),
      ("error", .str "server error")]), []⟩) =
      .error (.slipoText (.str "server error")) := by
  constructor
  · exact (error_message_rule ⟨500, .ok (.obj [("success", .bool false),
      ("errors", .arr [.obj [("description", .str "bad request")]])]), []⟩
      (.obj [("success", .bool false),
        ("errors", .arr [.obj [("description", .str "bad request")]])])
      rfl (.inl (by decide))).1
      (.arr [.obj [("description", .str "bad request")]])
      (.obj [("description", .str "bad request")]) (.str "bad request")
      rfl rfl rfl rfl
  · exact (error_message_rule ⟨500, .ok (.obj [("success", .bool false),
      ("error", .str "server error")]), []⟩
      (.obj [("success", .bool false), ("error", .str "server error")])
      rfl (.inl (by decide))).2
      (.str "server error") rfl rfl

/-- Claim C2: the Input Resolver maps a string to a FILESYSTEM descriptor
preserving the string as `path`, a 2-tuple `(a,b)` to a CATALOG descriptor
with `id=a, version=b`, and a 3-tuple `(a,b,c)` to an OUTPUT descriptor
with `processId=a, processVersion=b, fileId=c`. -/
theorem get_input_shapes :
    (∀ s : String, OperationClient.get_input (.str s) =
      .ok (.obj [("type", .str "FILESYSTEM"), ("path", .str s)])) ∧
    (∀ a b : Json, OperationClient.get_input (.tuple [a, b]) =
      .ok (.obj [("type", .str "CATALOG"), ("id", a), ("version", b)])) ∧
    (∀ a b c : Json, OperationClient.get_input (.tuple [a, b, c]) =
      .ok (.obj [("type", .str "OUTPUT"), ("processId", a),
                 ("processVersion", b), ("fileId", c)])) :=
  ⟨fun _ => rfl, fun _ _ => rfl, fun _ _ _ => rfl⟩

/-- Claim C3: the Input Resolver rejects every tuple whose length is
neither 2 nor 3 and every value that is neither a string nor a tuple,
raising `SlipoException` (and producing no descriptor). -/
theorem get_input_invalid (xs : List Json) (t : String)
    (h2 : xs.length ≠ 2) (h3 : xs.length ≠ 3) :
    OperationClient.get_input (.tuple xs) =
      .error (.slipoText (.str
        ("Expected a tuple with 2 or 3 members. Instead received " ++ toString xs.length))) ∧
    OperationClient.get_input (.other t) =
      .error (.slipoText (.str ("Unsupported input type " ++ t))) := by
  refine ⟨?_, rfl⟩
  match xs with
  | [] => rfl
  | [a] => rfl
  | [a, b] => exact absurd rfl h2
  | [a, b, c] => exact absurd rfl h3
  | a :: b :: c :: d :: rest => rfl

/-- Witness for claim C3: a 1-tuple and a non-string non-tuple value. -/
theorem get_input_invalid_witness :
    OperationClient.get_input (.tuple [.num 5]) =
      .error (.slipoText (.str "Expected a tuple with 2 or 3 members. Instead received 1")) ∧
    OperationClient.get_input (.other "int") =
      .error (.slipoText (.str "Unsupported input type int")) :=
  get_input_invalid [Json.num 5] "int" (by decide) (by decide)

/-- Claim C4: every error escaping `json_response` or `file_response` is a
`SlipoException`; raw transport or parsing exceptions never escape. -/
theorem response_errors_are_slipo :
    (∀ (call : Except PyExc HttpResponse) (e : PyExc),
      json_response call = .error e → e.isSlipo = true) ∧
    (∀ (call : Except PyExc HttpResponse) (t : String) (fs : FileSystem)
      (w : Option PyExc) (e : PyExc),
      (file_response call t fs w).fst = .error e → e.isSlipo = true) := by
  constructor
  · intro call e h
    exact runWrapped_error _ e h
  · intro call t fs w e h
    unfold file_response at h
    cases hx : runWrapped (match call with
      | .error e2 => .error e2
      | .ok r => file_body r t fs w) with
    | ok f => rw [hx] at h; simp at h
    | error e2 =>
      rw [hx] at h
      simp at h
      rw [← h]
      exact runWrapped_error _ e2 hx

/-- Witness for claim C4: a transport failure surfaces as a wrapped
`SlipoException`. -/
theorem response_errors_are_slipo_witness :
    PyExc.isSlipo (.slipoWrapped "ConnectionError" "refused") = true :=
  response_errors_are_slipo.1 (.error (.other "ConnectionError" "refused"))
    (.slipoWrapped "ConnectionError" "refused") rfl

/-- Claim C5: for an OK-status envelope with `success:true`, the Response
Normalizer returns the `result` value when the key is present and `None`
when absent, never raising, whatever the `error`/`errors` fields hold. -/
theorem success_returns_result (r : HttpResponse) (response : Json)
    (hjson : r.json = .ok response)
    (hstatus : r.status_code = HTTP_OK)
    (hsuccess : response.getItem "success" = .ok (.bool true)) :
    json_response (.ok r) = .ok (response.lookup "result") := by
  have hfc : failCondition r response = .ok false := by
    simp [failCondition, hstatus, hsuccess, Json.truthy]
  cases response with
  | obj fields =>
    cases hr : List.lookup "result" fields with
    | none =>
      simp [json_response, json_body, hjson, hfc, Json.hasKey, hr, Json.lookup, runWrapped]
    | some v =>
      simp [json_response, json_body, hjson, hfc, Json.hasKey, hr, Json.getItem,
            Json.lookup, runWrapped]
  | null => simp [Json.getItem] at hsuccess
  | bool b => simp [Json.getItem] at hsuccess
  | num n => simp [Json.getItem] at hsuccess
  | str s => simp [Json.getItem] at hsuccess
  | arr xs => simp [Json.getItem] at hsuccess

/-- Witness for claim C5: `result` present and `result` absent (with a
stray `error` field that is ignored). -/
theorem success_returns_result_witness :
    json_response (.ok ⟨200, .ok (.obj [("success", .bool true), ("result", .num 42)]), []⟩) =
      .ok (some (.num 42)) ∧
    json_response (.ok ⟨200, .ok (.obj [("success", .bool true),
      ("error", .str "ignored")]), []⟩) = .ok none := by
  constructor
  · exact success_returns_result ⟨200, .ok (.obj [("success", .bool true),
      ("result", .num 42)]), []⟩
      (.obj [("success", .bool true), ("result", .num 42)]) rfl rfl rfl
  · exact success_returns_result ⟨200, .ok (.obj [("success", .bool true),
      ("error", .str "ignored")]), []⟩
      (.obj [("success", .bool true), ("error", .str "ignored")]) rfl rfl rfl

/-- Claim C6, counterexample: the empty string is a base URL that does not
start with `https`, yet construction with `requires_ssl = true` succeeds
(and emits no warning), because the falsy check replaces the empty string
with the default URL before the scheme test. -/
theorem ssl_check_counterexample :
    strStartsWith "" "https" = false ∧
    Client.check_base_url (some "") true = .ok ("https://app.dev.slipo.eu/", false) :=
  ⟨rfl, rfl⟩

/-- Claim C6, amended: for every non-empty base URL not starting with
`https`, construction raises `SlipoException` when `requires_ssl` is true
and succeeds with a warning when it is false. -/
theorem ssl_check (b : String) (rs : Bool)
    (hne : b ≠ "") (hhttp : strStartsWith b "https" = false) :
    (rs = true → Client.check_base_url (some b) rs =
      .error (.slipoText (.str "HTTPS should be used for API requests"))) ∧
    (rs = false → Client.check_base_url (some b) rs =
      .ok ((if strEndsWith b "/" then b else b ++ "/"), true)) := by
  have heff : effectiveBaseUrl (some b) = b := by
    simp [effectiveBaseUrl, hne]
  constructor
  · intro h; subst h
    simp [Client.check_base_url, heff, hhttp]
  · intro h; subst h
    simp [Client.check_base_url, heff, hhttp]

/-- Witness for the amended claim C6: `http://example.com`. -/
theorem ssl_check_witness :
    Client.check_base_url (some "http://example.com") true =
      .error (.slipoText (.str "HTTPS should be used for API requests")) ∧
    Client.check_base_url (some "http://example.com") false =
      .ok ("http://example.com/", true) := by
  constructor
  · exact (ssl_check "http://example.com" true (by decide) (by decide)).1 rfl
  · exact (ssl_check "http://example.com" false (by decide) (by decide)).2 rfl

/-- Claim C7, counterexample: `CatalogClient.download` with a destination
that already exists as a file succeeds and overwrites it — it performs no
pre-existence check (it has no overwrite flag at all), so the claim is
false for that download operation. -/
theorem download_overwrite_counterexample :
    FileSystem.isFile ⟨[("out.nt", [0])], []⟩ "out.nt" = true ∧
    CatalogClient.download ⟨[("out.nt", [0])], []⟩ "out.nt"
      (.ok ⟨200, .ok (.obj []), [7]⟩) none =
      (.ok (), ⟨[("out.nt", [7])], []⟩) ∧
    (⟨[("out.nt", [7])], []⟩ : FileSystem) ≠ ⟨[("out.nt", [0])], []⟩ := by
  refine ⟨rfl, rfl, ?_⟩
  decide

/-- Claim C7, amended: the remote-filesystem download
(`FileSystemClient.download`) invoked with a destination that exists as a
file and `overwrite` unset raises `SlipoException` and performs no write
(the filesystem is unchanged, whatever the transport would return);
catalog and process downloads perform no such check. -/
theorem file_download_existing_target (fs : FileSystem) (target : String)
    (transport : Except PyExc HttpResponse) (w : Option PyExc)
    (hfile : fs.isFile target = true) :
    FileSystemClient.download fs target false transport w =
      (.error (.slipoText (.str ("File " ++ target ++ " already exists"))), fs) := by
  simp [FileSystemClient.download, FileSystemClient.download_inner, hfile,
        file_response, runWrapped, wrapExc]

/-- Witness for the amended claim C7: an existing `out.nt` destination. -/
theorem file_download_existing_target_witness :
    FileSystemClient.download ⟨[("out.nt", [0])], []⟩ "out.nt" false
      (.ok ⟨200, .ok (.obj []), [7]⟩) none =
      (.error (.slipoText (.str "File out.nt already exists")), ⟨[("out.nt", [0])], []⟩) :=
  file_download_existing_target ⟨[("out.nt", [0])], []⟩ "out.nt"
    (.ok ⟨200, .ok (.obj []), [7]⟩) none rfl

/-- Claim C8: the File Sink Wrapper writes the raw body to the target path
on OK status; on a non-OK status it raises `SlipoException` with the same
envelope message rule as the Response Normalizer (`envelopeErrorText`) and
leaves the filesystem untouched; an exception during the write is
converted to a `SlipoException`. -/
theorem file_sink_behavior (r : HttpResponse) (t : String) (fs : FileSystem)
    (w : Option PyExc) (response d : Json) (e : PyExc) :
    (r.status_code = HTTP_OK →
      file_response (.ok r) t fs none = (.ok (), fs.write t r.content)) ∧
    (r.status_code ≠ HTTP_OK → r.json = .ok response →
      envelopeErrorText response = .ok d →
      file_response (.ok r) t fs w = (.error (.slipoText d), fs)) ∧
    (r.status_code = HTTP_OK →
      file_response (.ok r) t fs (some e) = (.error (wrapExc e), fs) ∧
      (wrapExc e).isSlipo = true) := by
  refine ⟨?_, ?_, ?_⟩
  · intro h
    simp [file_response, file_body, h, runWrapped]
  · intro h hj hd
    simp [file_response, file_body, h, hj, hd, runWrapped, wrapExc]
  · intro h
    refine ⟨?_, wrapExc_isSlipo e⟩
    cases e <;> simp [file_response, file_body, h, runWrapped, wrapExc]

/-- Witness for claim C8: a successful write, a 404 with an `error`
envelope, and an `IOError` during the write. -/
theorem file_sink_behavior_witness :
    file_response (.ok ⟨200, .ok (.obj []), [9, 9]⟩) "t.bin" ⟨[], []⟩ none =
      (.ok (), ⟨[("t.bin", [9, 9])], []⟩) ∧
    file_response (.ok ⟨404, .ok (.obj [("error", .str "not found")]), []⟩)
      "t.bin" ⟨[], []⟩ none =
      (.error (.slipoText (.str "not found")), ⟨[], []⟩) ∧
    file_response (.ok ⟨200, .ok (.obj []), [9, 9]⟩) "t.bin" ⟨[], []⟩
      (some (.other "IOError" "disk full")) =
      (.error (.slipoWrapped "IOError" "disk full"), ⟨[], []⟩) := by
  refine ⟨?_, ?_, ?_⟩
  · exact (file_sink_behavior ⟨200, .ok (.obj []), [9, 9]⟩ "t.bin" ⟨[], []⟩ none
      (.obj []) (.obj []) (.other "IOError" "disk full")).1 rfl
  · exact (file_sink_behavior ⟨404, .ok (.obj [("error", .str "not found")]), []⟩
      "t.bin" ⟨[], []⟩ none (.obj [("error", .str "not found")]) (.str "not found")
      (.other "IOError" "disk full")).2.1 (by decide) rfl rfl
  · exact ((file_sink_behavior ⟨200, .ok (.obj []), [9, 9]⟩ "t.bin" ⟨[], []⟩ none
      (.obj []) (.obj []) (.other "IOError" "disk full")).2.2 rfl).1

/-- Claim C9: after successful construction the stored base URL ends with
a slash, defaults to `https://app.dev.slipo.eu/` when no base URL is
supplied, and is shared by all four sub-clients (immutability over the
object lifetime is captured by the purely functional model: nothing
mutates the record after construction). -/
theorem client_base_url_invariant (key : String) (b : Option String) (rs : Bool)
    (c : Client) (h : Client.init key b rs = .ok c) :
    strEndsWith c.base_url "/" = true ∧
    (b = none → c.base_url = BASE_URL) ∧
    c.file_client.base_url = c.base_url ∧
    c.catalog_client.base_url = c.base_url ∧
    c.process_client.base_url = c.base_url ∧
    c.operation_client.base_url = c.base_url := by
  unfold Client.init at h
  cases hc : Client.check_base_url b rs with
  | error e => rw [hc] at h; simp at h
  | ok p =>
    obtain ⟨url, w⟩ := p
    rw [hc] at h
    simp only [Except.ok.injEq] at h
    subst h
    refine ⟨check_base_url_ok_endsWith b rs url w hc, ?_, rfl, rfl, rfl, rfl⟩
    intro hb
    subst hb
    rw [show Client.check_base_url none rs = .ok (BASE_URL, false) from rfl] at hc
    simp only [Except.ok.injEq, Prod.mk.injEq] at hc
    exact hc.1.symm

/-- Witness for claim C9: default construction. -/
theorem client_base_url_invariant_witness :
    strEndsWith (Client.mk BASE_URL false ⟨BASE_URL, "key"⟩ ⟨BASE_URL, "key"⟩
      ⟨BASE_URL, "key"⟩ ⟨BASE_URL, "key"⟩).base_url "/" = true :=
  (client_base_url_invariant "key" none true
    (Client.mk BASE_URL false ⟨BASE_URL, "key"⟩ ⟨BASE_URL, "key"⟩
      ⟨BASE_URL, "key"⟩ ⟨BASE_URL, "key"⟩) rfl).1

/-- Claim C10: `Client.file_upload` strips exactly one leading slash from
`target` when present (leaving other targets unchanged) and passes
`source` and `overwrite` through unmodified. -/
theorem file_upload_strips_slash :
    (∀ (s rest : String) (o : Bool),
      Client.file_upload s ("/" ++ rest) o = ⟨s, rest, o⟩) ∧
    (∀ (s t : String) (o : Bool), strStartsWith t "/" = false →
      Client.file_upload s t o = ⟨s, t, o⟩) := by
  constructor
  · intro s rest o
    have hstart : strStartsWith ("/" ++ rest) "/" = true := by
      simp [strStartsWith, String.data_append, List.isPrefixOf]
    have hdrop : strDrop1 ("/" ++ rest) = rest := by
      simp [strDrop1, String.data_append]
    simp [Client.file_upload, hstart, hdrop]
  · intro s t o h
    simp [Client.file_upload, h]

/-- Witness for claim C10: a target with a double leading slash loses
exactly one, and a slash-free target is unchanged. -/
theorem file_upload_strips_slash_witness :
    Client.file_upload "src.csv" ("/" ++ "/a.csv") true = ⟨"src.csv", "/a.csv", true⟩ ∧
    Client.file_upload "src.csv" "a.csv" false = ⟨"src.csv", "a.csv", false⟩ :=
  ⟨file_upload_strips_slash.1 "src.csv" "/a.csv" true,
   file_upload_strips_slash.2 "src.csv" "a.csv" false (by decide)⟩
